import Mathlib

/-!
Verification of the generic daemon base class of the infoset repository
(`infoset/utils/daemon.py`), via a shallow embedding.

Modelling conventions:
* The filesystem is a partial map from paths to string contents
  (`FS := String → Option String`).
* Python `int(s.strip())` is modelled by `pyInt` (optional sign followed by
  decimal digits, surrounding whitespace stripped); a parse failure models the
  `ValueError` that `int` raises, which the daemon code does not catch
  (its `try` blocks catch `IOError` only).
* Python `str(pid)` for the nonnegative process id is modelled by `pyStr`.
* `os.kill`, the lock-file observations made by `stop`, and the pid of the
  detached process are inputs of the model (environment oracles), since they
  depend on the surrounding operating system.
* `log.log2die`, `log.log2warn` and `log.log2quiet` come from
  `infoset.utils.log`, which is not part of the sources here; following the
  spec (§7: fatal errors abort the calling control invocation, warnings and
  quiet logs return), `log2die` is modelled as the terminal
  outcome `Outcome.die` and the others as appended log entries.
-/

/-- A filesystem: a partial map from path names to file contents. -/
abbrev FS := String → Option String

/-- `os.path.exists`. -/
def pathExists (fs : FS) (p : String) : Bool :=
  (fs p).isSome

/-- `os.remove`. -/
def fsRemove (fs : FS) (p : String) : FS :=
  fun q => if q = p then none else fs q

/-- Opening `p` in write mode and writing `c`. -/
def fsWrite (fs : FS) (p : String) (c : String) : FS :=
  fun q => if q = p then some c else fs q

/-- The whitespace characters removed by Python `str.strip()` (ASCII part). -/
def isPySpace (c : Char) : Bool :=
  c = ' ' || c = '\t' || c = '\n' || c = '\r' || c = '\x0b' || c = '\x0c'

/-- Python `str.strip()`: drop whitespace from both ends. -/
def pyStrip (l : List Char) : List Char :=
  ((l.dropWhile isPySpace).reverse.dropWhile isPySpace).reverse

/-- The ten ASCII decimal digit characters. -/
def isDigitCh (c : Char) : Bool :=
  c = '0' || c = '1' || c = '2' || c = '3' || c = '4' ||
  c = '5' || c = '6' || c = '7' || c = '8' || c = '9'

/-- Numeric value of a digit character. -/
def digVal (c : Char) : Nat :=
  c.toNat - 48

/-- Value of a most-significant-first digit string. -/
def digitsToNat (l : List Char) : Nat :=
  l.foldl (fun a c => a * 10 + digVal c) 0

/-- Core of Python `int()` on an already-stripped string: an optional sign
followed by at least one decimal digit (the underscore-separator extension of
CPython is not modelled; no claim depends on it). `none` models `ValueError`. -/
def parseIntCore : List Char → Option Int
  | [] => none
  | c :: rest =>
    if c = '+' then
      if rest ≠ [] ∧ rest.all isDigitCh then some (digitsToNat rest) else none
    else if c = '-' then
      if rest ≠ [] ∧ rest.all isDigitCh then some (-(digitsToNat rest : Int)) else none
    else
      if (c :: rest).all isDigitCh then some (digitsToNat (c :: rest)) else none

/-- Model of `int(s.strip())` as used by `Daemon.start` and `Daemon.stop`. -/
def pyInt (s : String) : Option Int :=
  parseIntCore (pyStrip s.data)

/-- Decimal digit list of `n`, most significant first (fuelled recursion;
`fuel > n` suffices). -/
def decListAux : Nat → Nat → List Char
  | 0, _ => []
  | fuel + 1, n =>
    if n < 10 then [Nat.digitChar n]
    else decListAux fuel (n / 10) ++ [Nat.digitChar (n % 10)]

/-- Decimal digit list of `n`, most significant first. -/
def decList (n : Nat) : List Char :=
  decListAux (n + 1) n

/-- Model of Python `str(n)` for a nonnegative integer `n`. -/
def pyStr (n : Nat) : String :=
  ⟨decList n⟩

theorem digitChar_isDigitCh {m : Nat} (hm : m < 10) :
    isDigitCh (Nat.digitChar m) = true ∧ digVal (Nat.digitChar m) = m := by
  interval_cases m <;> exact ⟨by decide, by decide⟩

theorem digitsToNat_append_digit (l : List Char) (c : Char) :
    digitsToNat (l ++ [c]) = digitsToNat l * 10 + digVal c := by
  simp [digitsToNat, List.foldl_append]

theorem decListAux_spec :
    ∀ fuel n, n < fuel →
      decListAux fuel n ≠ [] ∧
      (∀ c ∈ decListAux fuel n, isDigitCh c = true) ∧
      digitsToNat (decListAux fuel n) = n := by
  intro fuel
  induction fuel with
  | zero => intro n hn; omega
  | succ f ih =>
    intro n hn
    by_cases h10 : n < 10
    · refine ⟨by simp [decListAux, h10], ?_, ?_⟩
      · intro c hc
        simp [decListAux, h10] at hc
        subst hc
        exact (digitChar_isDigitCh h10).1
      · simp [decListAux, h10, digitsToNat]
        exact (digitChar_isDigitCh h10).2
    · have hdiv : n / 10 < f := by
        have h1 : n / 10 < n := Nat.div_lt_self (by omega) (by omega)
        omega
      obtain ⟨hne, hdig, hval⟩ := ih (n / 10) hdiv
      have hmod : n % 10 < 10 := Nat.mod_lt _ (by omega)
      refine ⟨by simp [decListAux, h10], ?_, ?_⟩
      · intro c hc
        simp [decListAux, h10] at hc
        rcases hc with hc | hc
        · exact hdig c hc
        · subst hc
          exact (digitChar_isDigitCh hmod).1
      · have : decListAux (f + 1) n = decListAux f (n / 10) ++ [Nat.digitChar (n % 10)] := by
          simp [decListAux, h10]
        rw [this, digitsToNat_append_digit, hval, (digitChar_isDigitCh hmod).2]
        omega

theorem decList_spec (n : Nat) :
    decList n ≠ [] ∧ (∀ c ∈ decList n, isDigitCh c = true) ∧
    digitsToNat (decList n) = n :=
  decListAux_spec (n + 1) n (by omega)

theorem isDigitCh_ne_plus {c : Char} (h : isDigitCh c = true) : c ≠ '+' := by
  intro he; subst he; simp [isDigitCh] at h

theorem isDigitCh_ne_minus {c : Char} (h : isDigitCh c = true) : c ≠ '-' := by
  intro he; subst he; simp [isDigitCh] at h

theorem isDigitCh_not_space {c : Char} (h : isDigitCh c = true) :
    isPySpace c = false := by
  simp [isDigitCh] at h
  rcases h with ((((((((h | h) | h) | h) | h) | h) | h) | h) | h) | h <;>
    subst h <;> decide

theorem parseIntCore_digits (l : List Char) (hne : l ≠ [])
    (hdig : ∀ c ∈ l, isDigitCh c = true) :
    parseIntCore l = some (digitsToNat l : Int) := by
  cases l with
  | nil => exact absurd rfl hne
  | cons c rest =>
    have hc : isDigitCh c = true := hdig c (by simp)
    have hall : (c :: rest).all isDigitCh = true := by
      rw [List.all_eq_true]; intro x hx; exact hdig x hx
    simp [parseIntCore, isDigitCh_ne_plus hc, isDigitCh_ne_minus hc, hall]

theorem dropWhile_of_all_digits (l : List Char)
    (hdig : ∀ c ∈ l, isDigitCh c = true) :
    l.dropWhile isPySpace = l := by
  cases l with
  | nil => rfl
  | cons c rest =>
    have := isDigitCh_not_space (hdig c (by simp))
    simp [List.dropWhile, this]

theorem pyStrip_digits_newline (l : List Char) (hne : l ≠ [])
    (hdig : ∀ c ∈ l, isDigitCh c = true) :
    pyStrip (l ++ ['\n']) = l := by
  unfold pyStrip
  have h1 : (l ++ ['\n']).dropWhile isPySpace = l ++ ['\n'] := by
    cases l with
    | nil => exact absurd rfl hne
    | cons c rest =>
      have := isDigitCh_not_space (hdig c (by simp))
      simp [List.dropWhile, this]
  rw [h1]
  have h2 : (l ++ ['\n']).reverse = '\n' :: l.reverse := by
    simp
  rw [h2]
  have h3 : ('\n' :: l.reverse).dropWhile isPySpace = l.reverse.dropWhile isPySpace := by
    simp [List.dropWhile]
    rfl
  rw [h3]
  have h4 : l.reverse.dropWhile isPySpace = l.reverse := by
    apply dropWhile_of_all_digits
    intro c hc
    exact hdig c (List.mem_reverse.mp hc)
  rw [h4, List.reverse_reverse]

/-- Round trip: the content `str(pid) + '\n'` written by `daemonize` parses
back (as `int(content.strip())`) to the pid itself. -/
theorem pyInt_pyStr_newline (n : Nat) :
    pyInt (pyStr n ++ "\n") = some (n : Int) := by
  obtain ⟨hne, hdig, hval⟩ := decList_spec n
  have hdata : (pyStr n ++ "\n").data = decList n ++ ['\n'] := by
    rw [String.data_append]; rfl
  unfold pyInt
  rw [hdata, pyStrip_digits_newline _ hne hdig, parseIntCore_digits _ hne hdig, hval]

/-- The daemon controller configuration: `Daemon.__init__`. -/
structure Daemon where
  pidfile : String
  lockfile : Option String

/-- Log entries produced through `infoset.utils.log` (non-fatal calls). -/
inductive LogEntry
  | warn (code : Nat) (msg : String)
  | quiet (code : Nat) (msg : String)
deriving DecidableEq

/-- How a control operation ends.  `die` models `log.log2die` (modelled from
the spec: `infoset.utils.log` is not among the sources; per spec §7 fatal
errors abort the calling control invocation).  `exn` models an uncaught
Python exception propagating out of the method. -/
inductive Outcome
  | ok
  | die (code : Nat) (msg : String)
  | exn (msg : String)
deriving DecidableEq

/-- Observable events of the daemon lifecycle, in program order. -/
inductive Ev
  | fork1
  | decouple
  | fork2
  | redirect
  | registerAtexit
  | writePid (pid : Nat)
  | runCalled
  | sleep
  | checkLock (present : Bool)
  | sigterm (pid : Int)
deriving DecidableEq

/-- Result of one `os.kill(pid, SIGTERM)` attempt, an environment oracle.
`osError args` models `OSError` with `str(err.args) = args`; `otherExn`
models any non-`OSError` exception. -/
inductive KillRes
  | delivered
  | osError (args : String)
  | otherExn
deriving DecidableEq

/-- Python `str.find`: index of the first occurrence of `pat`, or `-1`. -/
def findSubAux (pat : List Char) : List Char → Int → Int
  | [], i => if pat.isPrefixOf ([] : List Char) then i else -1
  | c :: rest, i =>
    if pat.isPrefixOf (c :: rest) then i else findSubAux pat rest (i + 1)

/-- Python `s.find(pat)`. -/
def pyFind (s pat : String) : Int :=
  findSubAux pat.data s.data 0

/-- `Daemon.delpid`: delete the PID file if it exists. -/
def delpid (d : Daemon) (fs : FS) : FS :=
  if pathExists fs d.pidfile then fsRemove fs d.pidfile else fs

/-- `Daemon.dellock`: delete the lock file if one is configured and exists. -/
def dellock (d : Daemon) (fs : FS) : FS :=
  match d.lockfile with
  | none => fs
  | some l => if pathExists fs l then fsRemove fs l else fs

/-- Result of the PID-file read at the top of `start` and `stop`:
`try: pid = int(open(pidfile).read().strip()) except IOError: pid = None`.
A missing file raises `IOError` (caught); unparsable content raises
`ValueError` (not caught). -/
inductive ReadPidRes
  | noFile
  | valueError
  | gotPid (n : Int)

/-- The PID-file read shared by `Daemon.start` and `Daemon.stop`. -/
def readPidfile (d : Daemon) (fs : FS) : ReadPidRes :=
  match fs d.pidfile with
  | none => ReadPidRes.noFile
  | some content =>
    match pyInt content with
    | none => ReadPidRes.valueError
    | some n => ReadPidRes.gotPid n

/-- The `while 1` signalling loop of `Daemon.stop`, iteration `i` onwards,
with `fuel` remaining iterations.  `lockAt i` is whether the lock file exists
when iteration `i` checks it; `killAt i` is the result of a kill attempted at
iteration `i`.  Returns `none` when the fuel is exhausted with the loop still
running, otherwise the event trace together with the exception that ended the
loop (the loop has no other exit). -/
def stopLoop (d : Daemon) (pid : Int) (lockAt : Nat → Bool) (killAt : Nat → KillRes) :
    Nat → Nat → Option (List Ev × KillRes)
  | _, 0 => none
  | i, fuel + 1 =>
    match d.lockfile with
    | none =>
      match killAt i with
      | KillRes.delivered =>
        match stopLoop d pid lockAt killAt (i + 1) fuel with
        | none => none
        | some (evs, r) => some (Ev.sigterm pid :: Ev.sleep :: evs, r)
      | r => some ([], r)
    | some _ =>
      if lockAt i then
        match stopLoop d pid lockAt killAt (i + 1) fuel with
        | none => none
        | some (evs, r) => some (Ev.sleep :: Ev.checkLock true :: evs, r)
      else
        match killAt i with
        | KillRes.delivered =>
          match stopLoop d pid lockAt killAt (i + 1) fuel with
          | none => none
          | some (evs, r) =>
            some (Ev.sleep :: Ev.checkLock false :: Ev.sigterm pid :: Ev.sleep :: evs, r)
        | r => some ([Ev.sleep, Ev.checkLock false], r)

/-- Result of `Daemon.stop` (and of `Daemon.force`). -/
structure StopResult where
  fs : FS
  logs : List LogEntry
  events : List Ev
  outcome : Outcome

/-- `Daemon.stop`.  Returns `none` when the signalling loop is still running
after `fuel` iterations (the loop has no timeout of its own). -/
def stop (d : Daemon) (fs : FS) (lockAt : Nat → Bool) (killAt : Nat → KillRes)
    (fuel : Nat) : Option StopResult :=
  match readPidfile d fs with
  | ReadPidRes.valueError => some ⟨fs, [], [], Outcome.exn "ValueError"⟩
  | ReadPidRes.noFile =>
    some ⟨fs,
      [LogEntry.warn 1063
        ("PID file: " ++ d.pidfile ++ " does not exist. Daemon not running?")],
      [], Outcome.ok⟩
  | ReadPidRes.gotPid n =>
    if n = 0 then
      -- `if not pid:` — a parsed pid of 0 is falsy in Python.
      some ⟨fs,
        [LogEntry.warn 1063
          ("PID file: " ++ d.pidfile ++ " does not exist. Daemon not running?")],
        [], Outcome.ok⟩
    else
      match stopLoop d n lockAt killAt 0 fuel with
      | none => none
      | some (_, KillRes.delivered) => none
      | some (evs, KillRes.osError args) =>
        if pyFind args "No such process" > 0 then
          -- except-block cleanup, then the fall-through cleanup and log.
          some ⟨dellock d (delpid d (dellock d (delpid d fs))),
            [LogEntry.quiet 1071 ("Daemon Stopped - PID file: " ++ d.pidfile)],
            evs, Outcome.ok⟩
        else
          some ⟨fs, [], evs,
            Outcome.die 1068 (args ++ " - PID file: " ++ d.pidfile)⟩
      | some (evs, KillRes.otherExn) =>
        some ⟨fs, [], evs,
          Outcome.die 1066
            ("Unknown daemon \"stop\" error for PID file: " ++ d.pidfile)⟩

/-- `Daemon.force`: `self.dellock()` then `self.stop()`. -/
def force (d : Daemon) (fs : FS) (lockAt : Nat → Bool) (killAt : Nat → KillRes)
    (fuel : Nat) : Option StopResult :=
  stop d (dellock d fs) lockAt killAt fuel

/-- Result of `Daemon.start` (following the finally-detached child process;
the two intermediate parents exit with status 0 and are not modelled). -/
structure StartResult where
  fs : FS
  logs : List LogEntry
  events : List Ev
  outcome : Outcome
  ranRun : Bool

/-- `Daemon.daemonize`.  `fork1`/`fork2` are `none` on success or
`some err` when the corresponding `os.fork` raises `OSError` with
`str(err) = err`; `newPid` is `os.getpid()` of the detached process. -/
def daemonize (d : Daemon) (fs : FS) (fork1 fork2 : Option String)
    (newPid : Nat) : FS × List Ev × Outcome :=
  match fork1 with
  | some err =>
    (fs, [],
      Outcome.die 1060
        ("Daemon fork #1 failed: " ++ err ++ " - PID file: " ++ d.pidfile))
  | none =>
    match fork2 with
    | some err =>
      (fs, [Ev.fork1, Ev.decouple],
        Outcome.die 1061
          ("Daemon fork #2 failed: " ++ err ++ " - PID file: " ++ d.pidfile))
    | none =>
      (fsWrite fs d.pidfile (pyStr newPid ++ "\n"),
        [Ev.fork1, Ev.decouple, Ev.fork2, Ev.redirect, Ev.registerAtexit,
          Ev.writePid newPid],
        Outcome.ok)

/-- `Daemon.start`. -/
def start (d : Daemon) (fs : FS) (fork1 fork2 : Option String)
    (newPid : Nat) : StartResult :=
  match readPidfile d fs with
  | ReadPidRes.valueError => ⟨fs, [], [], Outcome.exn "ValueError", false⟩
  | ReadPidRes.noFile =>
    match daemonize d fs fork1 fork2 newPid with
    | (fs2, evs, Outcome.ok) =>
      ⟨fs2, [LogEntry.quiet 1070 ("Daemon Started - PID file: " ++ d.pidfile)],
        evs ++ [Ev.runCalled], Outcome.ok, true⟩
    | (fs2, evs, o) => ⟨fs2, [], evs, o, false⟩
  | ReadPidRes.gotPid n =>
    if n = 0 then
      -- `if pid:` — a parsed pid of 0 is falsy, so start proceeds.
      match daemonize d fs fork1 fork2 newPid with
      | (fs2, evs, Outcome.ok) =>
        ⟨fs2, [LogEntry.quiet 1070 ("Daemon Started - PID file: " ++ d.pidfile)],
          evs ++ [Ev.runCalled], Outcome.ok, true⟩
      | (fs2, evs, o) => ⟨fs2, [], evs, o, false⟩
    else
      ⟨fs, [], [],
        Outcome.die 1062
          ("PID file: " ++ d.pidfile ++ " already exists. Daemon already running?"),
        false⟩

/-- `Daemon.status`: print running/stopped according to PID-file existence.
A total function: `status` cannot raise. -/
def status (d : Daemon) (fs : FS) : String :=
  if pathExists fs d.pidfile then "Daemon is running" else "Daemon is stopped"

/-- `Daemon.restart`: `self.stop()` then `self.start()` (stop may not return;
included for completeness of the control surface). -/
def restart (d : Daemon) (fs : FS) (lockAt : Nat → Bool) (killAt : Nat → KillRes)
    (fuel : Nat) (fork1 fork2 : Option String) (newPid : Nat) :
    Option StartResult :=
  match stop d fs lockAt killAt fuel with
  | none => none
  | some res =>
    match res.outcome with
    | Outcome.ok => some (start d res.fs fork1 fork2 newPid)
    | o => some ⟨res.fs, res.logs, res.events, o, false⟩

/-! ## Filesystem lemmas for `delpid` / `dellock` -/

theorem delpid_apply_pidfile (d : Daemon) (fs : FS) :
    delpid d fs d.pidfile = none := by
  cases hfs : fs d.pidfile with
  | none => simp [delpid, pathExists, hfs]
  | some c => simp [delpid, pathExists, hfs, fsRemove]

theorem dellock_apply_lockfile (d : Daemon) (fs : FS) (l : String)
    (hl : d.lockfile = some l) : dellock d fs l = none := by
  cases hfs : fs l with
  | none => simp [dellock, hl, pathExists, hfs]
  | some c => simp [dellock, hl, pathExists, hfs, fsRemove]

theorem delpid_apply_none (d : Daemon) (fs : FS) (p : String)
    (h : fs p = none) : delpid d fs p = none := by
  unfold delpid
  split
  · simp [fsRemove, h]
  · exact h

theorem dellock_apply_none (d : Daemon) (fs : FS) (p : String)
    (h : fs p = none) : dellock d fs p = none := by
  unfold dellock
  cases d.lockfile with
  | none => exact h
  | some l =>
    simp only []
    split
    · simp [fsRemove, h]
    · exact h

theorem delpid_eq_of_absent (d : Daemon) (fs : FS)
    (h : fs d.pidfile = none) : delpid d fs = fs := by
  simp [delpid, pathExists, h]

theorem dellock_eq_of_no_config (d : Daemon) (fs : FS)
    (h : d.lockfile = none) : dellock d fs = fs := by
  simp [dellock, h]

theorem dellock_eq_of_absent (d : Daemon) (fs : FS) (l : String)
    (hl : d.lockfile = some l) (h : fs l = none) : dellock d fs = fs := by
  simp [dellock, hl, pathExists, h]

theorem delpid_idem (d : Daemon) (fs : FS) :
    delpid d (delpid d fs) = delpid d fs :=
  delpid_eq_of_absent d (delpid d fs) (delpid_apply_pidfile d fs)

theorem dellock_idem (d : Daemon) (fs : FS) :
    dellock d (dellock d fs) = dellock d fs := by
  cases hl : d.lockfile with
  | none => exact dellock_eq_of_no_config d (dellock d fs) hl
  | some l =>
    exact dellock_eq_of_absent d (dellock d fs) l hl
      (dellock_apply_lockfile d fs l hl)

theorem cleanup_twice_eq_once (d : Daemon) (fs : FS) :
    dellock d (delpid d (dellock d (delpid d fs))) = dellock d (delpid d fs) := by
  have h1 : (dellock d (delpid d fs)) d.pidfile = none :=
    dellock_apply_none d _ _ (delpid_apply_pidfile d fs)
  rw [delpid_eq_of_absent d _ h1, dellock_idem]

/-- C10: `delpid()` and `dellock()` are total and idempotent: each deletes its
file when it exists and is a no-op (raising nothing — both are total
functions of the filesystem) when the file is absent or, for `dellock`, when
no lock file is configured; and the `delpid(); dellock(); delpid(); dellock()`
sequence of the dead-process cleanup path of `stop()` has the same effect as
a single `delpid(); dellock()`. -/
theorem delpid_dellock_idempotent (d : Daemon) (fs : FS) :
    delpid d (delpid d fs) = delpid d fs ∧
    dellock d (dellock d fs) = dellock d fs ∧
    delpid d fs d.pidfile = none ∧
    (∀ l, d.lockfile = some l → dellock d fs l = none) ∧
    (fs d.pidfile = none → delpid d fs = fs) ∧
    (d.lockfile = none → dellock d fs = fs) ∧
    (∀ l, d.lockfile = some l → fs l = none → dellock d fs = fs) ∧
    dellock d (delpid d (dellock d (delpid d fs))) = dellock d (delpid d fs) := by
  refine ⟨delpid_idem d fs, dellock_idem d fs, delpid_apply_pidfile d fs,
    ?_, delpid_eq_of_absent d fs, dellock_eq_of_no_config d fs, ?_,
    cleanup_twice_eq_once d fs⟩
  · intro l hl; exact dellock_apply_lockfile d fs l hl
  · intro l hl h; exact dellock_eq_of_absent d fs l hl h

/-- Witness for C10 at a concrete configuration. -/
theorem delpid_dellock_idempotent_witness :
    (fun _ : String => (none : Option String)) "/run/d.pid" = none ∧
    delpid ⟨"/run/d.pid", none⟩ (fun _ => none) = (fun _ => none) :=
  ⟨rfl, (delpid_dellock_idempotent ⟨"/run/d.pid", none⟩ (fun _ => none)).2.2.2.2.1 rfl⟩

/-- C6: `status()` reports the daemon as running exactly when the PID file
exists and as stopped otherwise; it is a total function (it cannot raise) and
depends only on the existence of the PID file, never on the PID it contains:
two filesystems agreeing on existence get the same report. -/
theorem status_reports_pidfile_existence (d : Daemon) (fs fs2 : FS)
    (h : pathExists fs d.pidfile = pathExists fs2 d.pidfile) :
    (status d fs = "Daemon is running" ↔ pathExists fs d.pidfile = true) ∧
    (status d fs = "Daemon is stopped" ↔ pathExists fs d.pidfile = false) ∧
    status d fs = status d fs2 := by
  cases hb : pathExists fs d.pidfile <;>
    simp_all [status]

/-- Witness for C6: two filesystems holding different PIDs under the same
path get the same report. -/
theorem status_reports_pidfile_existence_witness :
    (status ⟨"/run/d.pid", none⟩ (fun q => if q = "/run/d.pid" then some "11" else none) =
        "Daemon is running" ↔
      pathExists (fun q => if q = "/run/d.pid" then some "11" else none) "/run/d.pid" = true) ∧
    (status ⟨"/run/d.pid", none⟩ (fun q => if q = "/run/d.pid" then some "11" else none) =
        "Daemon is stopped" ↔
      pathExists (fun q => if q = "/run/d.pid" then some "11" else none) "/run/d.pid" = false) ∧
    status ⟨"/run/d.pid", none⟩ (fun q => if q = "/run/d.pid" then some "11" else none) =
      status ⟨"/run/d.pid", none⟩ (fun q => if q = "/run/d.pid" then some "999" else none) :=
  status_reports_pidfile_existence ⟨"/run/d.pid", none⟩
    (fun q => if q = "/run/d.pid" then some "11" else none)
    (fun q => if q = "/run/d.pid" then some "999" else none) rfl

/-! ## C8: force() refines stop() after lock removal -/

theorem dellock_eq_remove (d : Daemon) (fs : FS) (l : String)
    (hl : d.lockfile = some l) : dellock d fs = fsRemove fs l := by
  cases hfs : fs l with
  | some c =>
    have hp : pathExists fs l = true := by simp [pathExists, hfs]
    simp [dellock, hl, hp]
  | none =>
    have hp : pathExists fs l = false := by simp [pathExists, hfs]
    funext q
    simp only [dellock, hl, hp, Bool.false_eq_true, if_false, fsRemove]
    split
    · rename_i hq; rw [hq, hfs]
    · rfl

/-- Specification-side restatement of `force()` (spec §4.1): delete the lock
file unconditionally when one is configured — bypassing the wait-for-lock
courtesy — then perform an ordinary `stop()` on the resulting state. -/
def forceSpec (d : Daemon) (fs : FS) (lockAt : Nat → Bool) (killAt : Nat → KillRes)
    (fuel : Nat) : Option StopResult :=
  stop d (match d.lockfile with | none => fs | some l => fsRemove fs l)
    lockAt killAt fuel

/-- C8: `force()` first deletes the lock file when one is configured and
exists (touching no other path), and thereafter behaves exactly as `stop()`
invoked on the resulting state: it coincides with the spec-side
unconditional-removal-then-stop description for every PID-file state. -/
theorem force_refines_stop (d : Daemon) (fs : FS) (lockAt : Nat → Bool)
    (killAt : Nat → KillRes) (fuel : Nat) :
    force d fs lockAt killAt fuel = stop d (dellock d fs) lockAt killAt fuel ∧
    force d fs lockAt killAt fuel = forceSpec d fs lockAt killAt fuel ∧
    (∀ l, d.lockfile = some l → dellock d fs l = none) ∧
    (∀ p, d.lockfile ≠ some p → dellock d fs p = fs p) := by
  refine ⟨rfl, ?_, ?_, ?_⟩
  · unfold force forceSpec
    cases hl : d.lockfile with
    | none => rw [dellock_eq_of_no_config d fs hl]
    | some l => rw [dellock_eq_remove d fs l hl]
  · intro l hl; exact dellock_apply_lockfile d fs l hl
  · intro p hp
    cases hl : d.lockfile with
    | none => rw [dellock_eq_of_no_config d fs hl]
    | some l =>
      have hne : p ≠ l := by intro he; rw [he] at hp; exact hp hl
      rw [dellock_eq_remove d fs l hl]
      simp [fsRemove, hne]

/-- Shared concrete fixtures for witnesses and counterexamples. -/
def dPlain : Daemon := ⟨"/run/infoset.pid", none⟩

def dLocked : Daemon := ⟨"/run/infoset.pid", some "/run/infoset.lock"⟩

def fsNone : FS := fun _ => none

def fsPid (c : String) : FS :=
  fun q => if q = "/run/infoset.pid" then some c else none

def fsPidLock (c : String) : FS :=
  fun q =>
    if q = "/run/infoset.pid" then some c
    else if q = "/run/infoset.lock" then some "" else none

/-- Witness for C8 at a concrete locked configuration. -/
theorem force_refines_stop_witness :
    force dLocked (fsPidLock "5") (fun _ => false) (fun _ => KillRes.otherExn) 1 =
      forceSpec dLocked (fsPidLock "5") (fun _ => false) (fun _ => KillRes.otherExn) 1 ∧
    dellock dLocked (fsPidLock "5") "/run/infoset.lock" = none :=
  ⟨(force_refines_stop dLocked (fsPidLock "5") (fun _ => false)
      (fun _ => KillRes.otherExn) 1).2.1,
    (force_refines_stop dLocked (fsPidLock "5") (fun _ => false)
      (fun _ => KillRes.otherExn) 1).2.2.1 "/run/infoset.lock" rfl⟩

/-! ## C1: stop() on an absent or unparsable PID file -/

/-- C1 counterexample: with an existing PID file whose content `"x"` is not
parsable as an integer, `stop()` neither emits a warning nor returns
successfully — the uncaught `ValueError` from `int()` propagates (only
`IOError` is caught).  The filesystem is untouched and no signal is sent,
but the claimed warning-and-success behaviour fails. -/
theorem stop_unparsable_pidfile_cex :
    fsPid "x" dPlain.pidfile = some "x" ∧
    pyInt "x" = none ∧
    (stop dPlain (fsPid "x") (fun _ => false) (fun _ => KillRes.delivered) 1).map
        StopResult.outcome = some (Outcome.exn "ValueError") ∧
    (stop dPlain (fsPid "x") (fun _ => false) (fun _ => KillRes.delivered) 1).map
        StopResult.outcome ≠ some Outcome.ok ∧
    (stop dPlain (fsPid "x") (fun _ => false) (fun _ => KillRes.delivered) 1).map
        StopResult.logs = some [] := by
  refine ⟨rfl, rfl, rfl, ?_, rfl⟩
  decide

/-- C1 (amended): `stop()` with the PID file absent — or present with content
parsing to the falsy pid 0 — emits the warning and returns successfully,
sending no signal and leaving the filesystem unchanged; but when the content
exists and is unparsable as an integer, `stop()` raises an uncaught
`ValueError` (still sending no signal and leaving the filesystem unchanged)
instead of warning and returning. -/
theorem stop_missing_pidfile_amended (d : Daemon) (fs : FS) (lockAt : Nat → Bool)
    (killAt : Nat → KillRes) (fuel : Nat) :
    ((fs d.pidfile = none ∨ (∃ c, fs d.pidfile = some c ∧ pyInt c = some 0)) →
      stop d fs lockAt killAt fuel =
        some ⟨fs,
          [LogEntry.warn 1063
            ("PID file: " ++ d.pidfile ++ " does not exist. Daemon not running?")],
          [], Outcome.ok⟩) ∧
    (∀ c, fs d.pidfile = some c → pyInt c = none →
      stop d fs lockAt killAt fuel = some ⟨fs, [], [], Outcome.exn "ValueError"⟩) := by
  constructor
  · intro h
    rcases h with h | ⟨c, hc, hp⟩
    · simp [stop, readPidfile, h]
    · simp [stop, readPidfile, hc, hp]
  · intro c hc hp
    simp [stop, readPidfile, hc, hp]

/-- Witness for C1 (amended): the absent-file case at a concrete state. -/
theorem stop_missing_pidfile_amended_witness :
    stop dPlain fsNone (fun _ => false) (fun _ => KillRes.delivered) 1 =
      some ⟨fsNone,
        [LogEntry.warn 1063
          ("PID file: " ++ dPlain.pidfile ++ " does not exist. Daemon not running?")],
        [], Outcome.ok⟩ :=
  (stop_missing_pidfile_amended dPlain fsNone (fun _ => false)
    (fun _ => KillRes.delivered) 1).1 (Or.inl rfl)

/-! ## C2: start() with an existing, non-empty PID file -/

/-- C2 counterexample: a PID file containing `"0"` exists and has content,
yet `start()` does not fail: `int("0")` is 0, which is falsy, so the
`if pid:` guard does not fire and the daemonize sequence runs, a fresh PID
file is written and `run()` is invoked. -/
theorem start_zero_pidfile_cex :
    fsPid "0" dPlain.pidfile = some "0" ∧
    (start dPlain (fsPid "0") none none 42).outcome = Outcome.ok ∧
    (start dPlain (fsPid "0") none none 42).ranRun = true ∧
    Ev.writePid 42 ∈ (start dPlain (fsPid "0") none none 42).events ∧
    Ev.runCalled ∈ (start dPlain (fsPid "0") none none 42).events := by
  refine ⟨rfl, rfl, rfl, ?_, ?_⟩ <;> decide

/-- C2 (amended): when the PID file exists and its content parses as a
nonzero integer at the time `start()` is called, `start()` fails fatally with
the already-running error and performs nothing — no daemonize event, no PID
file write, no `run()` invocation, filesystem unchanged.  When the content
exists but cannot be parsed as an integer, `start()` likewise performs
nothing, aborting with an uncaught `ValueError`.  (A content parsing to 0 is
falsy and does not prevent a start.) -/
theorem start_existing_pidfile_amended (d : Daemon) (fs : FS)
    (fork1 fork2 : Option String) (newPid : Nat) (c : String)
    (hc : fs d.pidfile = some c) :
    (∀ n, pyInt c = some n → n ≠ 0 →
      start d fs fork1 fork2 newPid =
        ⟨fs, [], [],
          Outcome.die 1062
            ("PID file: " ++ d.pidfile ++ " already exists. Daemon already running?"),
          false⟩) ∧
    (pyInt c = none →
      start d fs fork1 fork2 newPid = ⟨fs, [], [], Outcome.exn "ValueError", false⟩) := by
  constructor
  · intro n hn hn0
    simp [start, readPidfile, hc, hn, hn0]
  · intro hp
    simp [start, readPidfile, hc, hp]

/-- Witness for C2 (amended): a PID file containing `"7"` makes `start()`
die with the already-running error. -/
theorem start_existing_pidfile_amended_witness :
    start dPlain (fsPid "7") none none 42 =
      ⟨fsPid "7", [], [],
        Outcome.die 1062
          ("PID file: " ++ dPlain.pidfile ++ " already exists. Daemon already running?"),
        false⟩ :=
  (start_existing_pidfile_amended dPlain (fsPid "7") none none 42 "7" rfl).1
    7 rfl (by decide)

/-! ## C7: fork failures abort start() fatally -/

theorem fork_msg_ne (a b : String) :
    "Daemon fork #1 failed: " ++ a ≠ "Daemon fork #2 failed: " ++ b := by
  intro heq
  have hd := congrArg String.data heq
  rw [String.data_append, String.data_append] at hd
  have h13 := congrArg (fun l => l[13]?) hd
  simp only [] at h13
  rw [List.getElem?_append_left (by decide),
    List.getElem?_append_left (by decide)] at h13
  exact absurd h13 (by decide)

/-- C7: if either fork in the daemonize sequence fails, the whole `start()`
sequence aborts fatally (modelled from the spec: `log.log2die` is the fatal
abort), with error code and message distinguishing a fork #1 failure
(code 1060) from a fork #2 failure (code 1061), each message naming the
PID-file path; the filesystem is unchanged, so no PID file is written, and
`run()` is never invoked. -/
theorem start_fork_failure_fatal (d : Daemon) (fs : FS) (newPid : Nat)
    (err : String) (fork2 : Option String) (h : fs d.pidfile = none) :
    start d fs (some err) fork2 newPid =
      ⟨fs, [], [],
        Outcome.die 1060
          ("Daemon fork #1 failed: " ++ err ++ " - PID file: " ++ d.pidfile),
        false⟩ ∧
    start d fs none (some err) newPid =
      ⟨fs, [], [Ev.fork1, Ev.decouple],
        Outcome.die 1061
          ("Daemon fork #2 failed: " ++ err ++ " - PID file: " ++ d.pidfile),
        false⟩ ∧
    (start d fs (some err) fork2 newPid).outcome ≠
      (start d fs none (some err) newPid).outcome ∧
    ("Daemon fork #1 failed: " ++ err ++ " - PID file: " ++ d.pidfile) ≠
      ("Daemon fork #2 failed: " ++ err ++ " - PID file: " ++ d.pidfile) ∧
    (start d fs (some err) fork2 newPid).fs d.pidfile = none ∧
    (start d fs none (some err) newPid).fs d.pidfile = none ∧
    Ev.writePid newPid ∉ (start d fs (some err) fork2 newPid).events ∧
    Ev.writePid newPid ∉ (start d fs none (some err) newPid).events ∧
    Ev.runCalled ∉ (start d fs (some err) fork2 newPid).events ∧
    Ev.runCalled ∉ (start d fs none (some err) newPid).events := by
  have h1 : start d fs (some err) fork2 newPid =
      ⟨fs, [], [],
        Outcome.die 1060
          ("Daemon fork #1 failed: " ++ err ++ " - PID file: " ++ d.pidfile),
        false⟩ := by
    simp [start, readPidfile, h, daemonize]
  have h2 : start d fs none (some err) newPid =
      ⟨fs, [], [Ev.fork1, Ev.decouple],
        Outcome.die 1061
          ("Daemon fork #2 failed: " ++ err ++ " - PID file: " ++ d.pidfile),
        false⟩ := by
    simp [start, readPidfile, h, daemonize]
  refine ⟨h1, h2, ?_, ?_, ?_, ?_, ?_, ?_, ?_, ?_⟩
  · rw [h1, h2]
    intro hcon
    simp only [Outcome.die.injEq] at hcon
    omega
  · have hassoc :
        ∀ s : String, s ++ err ++ " - PID file: " ++ d.pidfile =
          s ++ (err ++ " - PID file: " ++ d.pidfile) := by
      intro s
      simp [String.append_assoc]
    rw [hassoc, hassoc]
    exact fork_msg_ne _ _
  · rw [h1]; exact h
  · rw [h2]; exact h
  · rw [h1]; simp
  · rw [h2]; simp
  · rw [h1]; simp
  · rw [h2]; simp

/-- Witness for C7: a concrete fork #1 failure dies with code 1060 and the
message naming the failure stage and the PID-file path. -/
theorem start_fork_failure_fatal_witness :
    start dPlain fsNone (some "[Errno 11] Resource temporarily unavailable") none 7 =
      ⟨fsNone, [], [],
        Outcome.die 1060
          ("Daemon fork #1 failed: " ++ "[Errno 11] Resource temporarily unavailable" ++
            " - PID file: " ++ dPlain.pidfile),
        false⟩ ∧
    start dPlain fsNone none (some "[Errno 11] Resource temporarily unavailable") 7 =
      ⟨fsNone, [], [Ev.fork1, Ev.decouple],
        Outcome.die 1061
          ("Daemon fork #2 failed: " ++ "[Errno 11] Resource temporarily unavailable" ++
            " - PID file: " ++ dPlain.pidfile),
        false⟩ :=
  ⟨(start_fork_failure_fatal dPlain fsNone 7
      "[Errno 11] Resource temporarily unavailable" none rfl).1,
    (start_fork_failure_fatal dPlain fsNone 7
      "[Errno 11] Resource temporarily unavailable" none rfl).2.1⟩

/-! ## C5: successful start() writes the PID file after detaching,
before run() -/

/-- C5: in every successful `start()`, the event trace is exactly
fork #1, decoupling, fork #2, stream redirection, atexit registration,
PID-file write, `run()` — so the write is strictly after the second fork and
the redirection and strictly before `run()` — and the PID file then holds
the detached process id followed by a newline, which parses back (via
`int(content.strip())`) to that nonnegative id. -/
theorem start_success_pidfile_trace (d : Daemon) (fs : FS)
    (fork1 fork2 : Option String) (newPid : Nat)
    (h : (start d fs fork1 fork2 newPid).outcome = Outcome.ok) :
    (start d fs fork1 fork2 newPid).events =
      [Ev.fork1, Ev.decouple, Ev.fork2, Ev.redirect, Ev.registerAtexit,
        Ev.writePid newPid, Ev.runCalled] ∧
    (∃ pre post, (start d fs fork1 fork2 newPid).events =
        pre ++ Ev.writePid newPid :: post ∧
      Ev.fork2 ∈ pre ∧ Ev.redirect ∈ pre ∧ Ev.runCalled ∈ post ∧
      Ev.writePid newPid ∉ pre ∧ Ev.fork2 ∉ post ∧ Ev.redirect ∉ post) ∧
    (start d fs fork1 fork2 newPid).fs d.pidfile = some (pyStr newPid ++ "\n") ∧
    pyInt (pyStr newPid ++ "\n") = some (newPid : Int) ∧
    0 ≤ (newPid : Int) ∧
    (start d fs fork1 fork2 newPid).ranRun = true := by
  have hforks : fork1 = none ∧ fork2 = none ∧
      (start d fs fork1 fork2 newPid).events =
        [Ev.fork1, Ev.decouple, Ev.fork2, Ev.redirect, Ev.registerAtexit,
          Ev.writePid newPid, Ev.runCalled] ∧
      (start d fs fork1 fork2 newPid).fs d.pidfile = some (pyStr newPid ++ "\n") ∧
      (start d fs fork1 fork2 newPid).ranRun = true := by
    cases hf1 : fork1 with
    | some e =>
      exfalso
      cases hread : readPidfile d fs with
      | noFile => simp [start, hread, hf1, daemonize] at h
      | valueError => simp [start, hread, hf1] at h
      | gotPid n =>
        by_cases hn : n = 0
        · simp [start, hread, hf1, hn, daemonize] at h
        · simp [start, hread, hf1, hn] at h
    | none =>
      cases hf2 : fork2 with
      | some e =>
        exfalso
        cases hread : readPidfile d fs with
        | noFile => simp [start, hread, hf1, hf2, daemonize] at h
        | valueError => simp [start, hread, hf1, hf2] at h
        | gotPid n =>
          by_cases hn : n = 0
          · simp [start, hread, hf1, hf2, hn, daemonize] at h
          · simp [start, hread, hf1, hf2, hn] at h
      | none =>
        refine ⟨rfl, rfl, ?_⟩
        cases hread : readPidfile d fs with
        | noFile =>
          simp [start, hread, daemonize, fsWrite]
        | valueError => simp [start, hread, hf1, hf2] at h
        | gotPid n =>
          by_cases hn : n = 0
          · simp [start, hread, hn, daemonize, fsWrite]
          · simp [start, hread, hf1, hf2, hn] at h
  obtain ⟨-, -, hevs, hfs, hrun⟩ := hforks
  refine ⟨hevs, ?_, hfs, pyInt_pyStr_newline newPid, by omega, hrun⟩
  refine ⟨[Ev.fork1, Ev.decouple, Ev.fork2, Ev.redirect, Ev.registerAtexit],
    [Ev.runCalled], ?_, by simp, by simp, by simp, by simp, by simp, by simp⟩
  rw [hevs]
  rfl

/-- Witness for C5: a concrete successful start with pid 230. -/
theorem start_success_pidfile_trace_witness :
    (start dPlain fsNone none none 230).events =
      [Ev.fork1, Ev.decouple, Ev.fork2, Ev.redirect, Ev.registerAtexit,
        Ev.writePid 230, Ev.runCalled] ∧
    (start dPlain fsNone none none 230).fs dPlain.pidfile =
      some (pyStr 230 ++ "\n") ∧
    pyInt (pyStr 230 ++ "\n") = some (230 : Int) :=
  ⟨(start_success_pidfile_trace dPlain fsNone none none 230 rfl).1,
    (start_success_pidfile_trace dPlain fsNone none none 230 rfl).2.2.1,
    (start_success_pidfile_trace dPlain fsNone none none 230 rfl).2.2.2.1⟩

/-! ## C3: stop() treats a vanished process as successful cleanup -/

/-- C3: when `stop()` has read a nonzero PID and the signalling loop ends
with an `OSError` whose text contains "No such process", `stop()` deletes the
PID file and the lock file (when one is configured) and returns success —
the result is `ok` with the Daemon-Stopped log, not an error. -/
theorem stop_dead_process_cleanup (d : Daemon) (fs : FS) (lockAt : Nat → Bool)
    (killAt : Nat → KillRes) (fuel : Nat) (c : String) (n : Int)
    (evs : List Ev) (args : String)
    (hc : fs d.pidfile = some c) (hn : pyInt c = some n) (hn0 : n ≠ 0)
    (hloop : stopLoop d n lockAt killAt 0 fuel = some (evs, KillRes.osError args))
    (hfind : pyFind args "No such process" > 0) :
    stop d fs lockAt killAt fuel =
      some ⟨dellock d (delpid d (dellock d (delpid d fs))),
        [LogEntry.quiet 1071 ("Daemon Stopped - PID file: " ++ d.pidfile)],
        evs, Outcome.ok⟩ ∧
    (dellock d (delpid d (dellock d (delpid d fs)))) d.pidfile = none ∧
    (∀ l, d.lockfile = some l →
      (dellock d (delpid d (dellock d (delpid d fs)))) l = none) := by
  refine ⟨?_, ?_, ?_⟩
  · simp [stop, readPidfile, hc, hn, hn0, hloop, hfind]
  · exact dellock_apply_none d _ _ (delpid_apply_none d _ _
      (dellock_apply_none d _ _ (delpid_apply_pidfile d fs)))
  · intro l hl
    exact dellock_apply_lockfile d _ l hl

/-- Witness for C3: concrete locked daemon, lock already gone, first kill
reports that the process does not exist. -/
theorem stop_dead_process_cleanup_witness :
    stop dLocked (fsPid "5") (fun _ => false)
        (fun _ => KillRes.osError "[Errno 3] No such process") 1 =
      some ⟨dellock dLocked (delpid dLocked
          (dellock dLocked (delpid dLocked (fsPid "5")))),
        [LogEntry.quiet 1071 ("Daemon Stopped - PID file: " ++ dLocked.pidfile)],
        [Ev.sleep, Ev.checkLock false], Outcome.ok⟩ ∧
    (dellock dLocked (delpid dLocked
      (dellock dLocked (delpid dLocked (fsPid "5"))))) dLocked.pidfile = none :=
  ⟨(stop_dead_process_cleanup dLocked (fsPid "5") (fun _ => false)
      (fun _ => KillRes.osError "[Errno 3] No such process") 1 "5" 5
      [Ev.sleep, Ev.checkLock false] "[Errno 3] No such process"
      rfl rfl (by decide) rfl (by decide)).1,
    (stop_dead_process_cleanup dLocked (fsPid "5") (fun _ => false)
      (fun _ => KillRes.osError "[Errno 3] No such process") 1 "5" 5
      [Ev.sleep, Ev.checkLock false] "[Errno 3] No such process"
      rfl rfl (by decide) rfl (by decide)).2.1⟩

/-! ## C4: with a lock file configured, SIGTERM is sent only after an
iteration observes the lock file absent -/

/-- Holds of a trace iff every `sigterm` event is immediately preceded by a
`checkLock false` event (an observation that the lock file is absent). -/
def sigOnlyAfterUnlockedCheck : List Ev → Bool
  | [] => true
  | Ev.checkLock false :: Ev.sigterm _ :: rest => sigOnlyAfterUnlockedCheck rest
  | Ev.sigterm _ :: _ => false
  | _ :: rest => sigOnlyAfterUnlockedCheck rest

/-- Holds of a trace iff every `checkLock` event is immediately preceded by a
`sleep` event (each iteration sleeps before re-checking). -/
def checkOnlyAfterSleep : List Ev → Bool
  | [] => true
  | Ev.sleep :: Ev.checkLock _ :: rest => checkOnlyAfterSleep rest
  | Ev.checkLock _ :: _ => false
  | _ :: rest => checkOnlyAfterSleep rest

/-- Every trace the lock-configured signalling loop can produce starts with a
sleep (or is empty), signals only immediately after seeing the lock absent,
and checks the lock only immediately after a sleep. -/
theorem stopLoop_locked_trace_invariant (d : Daemon) (pid : Int)
    (lockAt : Nat → Bool) (killAt : Nat → KillRes) (hl : d.lockfile.isSome) :
    ∀ fuel i evs r, stopLoop d pid lockAt killAt i fuel = some (evs, r) →
      (evs = [] ∨ ∃ t, evs = Ev.sleep :: t) ∧
      sigOnlyAfterUnlockedCheck evs = true ∧
      checkOnlyAfterSleep evs = true := by
  intro fuel
  induction fuel with
  | zero => intro i evs r h; simp [stopLoop] at h
  | succ f ih =>
    intro i evs r h
    cases hlk : d.lockfile with
    | none => rw [hlk] at hl; simp at hl
    | some l =>
      rw [stopLoop, hlk] at h
      by_cases hli : lockAt i
      · rw [if_pos hli] at h
        cases hrec : stopLoop d pid lockAt killAt (i + 1) f with
        | none => rw [hrec] at h; simp at h
        | some pr =>
          obtain ⟨evs2, r2⟩ := pr
          rw [hrec] at h
          simp only [Option.some.injEq, Prod.mk.injEq] at h
          obtain ⟨hevs, hr⟩ := h
          obtain ⟨hsh, hsig, hchk⟩ := ih (i + 1) evs2 r2 hrec
          subst hevs
          refine ⟨Or.inr ⟨_, rfl⟩, ?_, ?_⟩
          · simpa [sigOnlyAfterUnlockedCheck] using hsig
          · simpa [checkOnlyAfterSleep] using hchk
      · rw [if_neg hli] at h
        cases hk : killAt i with
        | delivered =>
          rw [hk] at h
          cases hrec : stopLoop d pid lockAt killAt (i + 1) f with
          | none => rw [hrec] at h; simp at h
          | some pr =>
            obtain ⟨evs2, r2⟩ := pr
            rw [hrec] at h
            simp only [Option.some.injEq, Prod.mk.injEq] at h
            obtain ⟨hevs, hr⟩ := h
            obtain ⟨hsh, hsig, hchk⟩ := ih (i + 1) evs2 r2 hrec
            subst hevs
            refine ⟨Or.inr ⟨_, rfl⟩, ?_, ?_⟩
            · simpa [sigOnlyAfterUnlockedCheck] using hsig
            · rcases hsh with hsh | ⟨t, hsh⟩ <;> subst hsh
              · simp [checkOnlyAfterSleep]
              · simpa [checkOnlyAfterSleep] using hchk
        | osError a =>
          rw [hk] at h
          simp only [Option.some.injEq, Prod.mk.injEq] at h
          obtain ⟨hevs, hr⟩ := h
          subst hevs
          exact ⟨Or.inr ⟨_, rfl⟩, by simp [sigOnlyAfterUnlockedCheck],
            by simp [checkOnlyAfterSleep]⟩
        | otherExn =>
          rw [hk] at h
          simp only [Option.some.injEq, Prod.mk.injEq] at h
          obtain ⟨hevs, hr⟩ := h
          subst hevs
          exact ⟨Or.inr ⟨_, rfl⟩, by simp [sigOnlyAfterUnlockedCheck],
            by simp [checkOnlyAfterSleep]⟩

/-- C4: when a lock file is configured, `stop()` never sends SIGTERM while
the lock file is observed present: every iteration of its poll loop first
sleeps and re-checks, and in the event trace of any `stop()` outcome every
SIGTERM is immediately preceded by an observation that the lock file is
absent, and every lock check is immediately preceded by a sleep. -/
theorem stop_defers_sigterm_while_locked (d : Daemon) (l : String) (fs : FS)
    (lockAt : Nat → Bool) (killAt : Nat → KillRes) (fuel : Nat)
    (res : StopResult) (hl : d.lockfile = some l)
    (h : stop d fs lockAt killAt fuel = some res) :
    sigOnlyAfterUnlockedCheck res.events = true ∧
    checkOnlyAfterSleep res.events = true := by
  have hls : d.lockfile.isSome := by rw [hl]; rfl
  unfold stop at h
  cases hread : readPidfile d fs with
  | noFile =>
    rw [hread] at h
    simp only [Option.some.injEq] at h
    subst h
    exact ⟨rfl, rfl⟩
  | valueError =>
    rw [hread] at h
    simp only [Option.some.injEq] at h
    subst h
    exact ⟨rfl, rfl⟩
  | gotPid n =>
    rw [hread] at h
    dsimp only at h
    by_cases hn : n = 0
    · rw [if_pos hn] at h
      simp only [Option.some.injEq] at h
      subst h
      exact ⟨rfl, rfl⟩
    · rw [if_neg hn] at h
      cases hloop : stopLoop d n lockAt killAt 0 fuel with
      | none => rw [hloop] at h; simp at h
      | some pr =>
        obtain ⟨evs, r⟩ := pr
        rw [hloop] at h
        have hinv := stopLoop_locked_trace_invariant d n lockAt killAt hls
          fuel 0 evs r hloop
        cases r with
        | delivered => simp at h
        | osError args =>
          dsimp only at h
          by_cases hf : pyFind args "No such process" > 0
          · rw [if_pos hf] at h
            simp only [Option.some.injEq] at h
            subst h
            exact ⟨hinv.2.1, hinv.2.2⟩
          · rw [if_neg hf] at h
            simp only [Option.some.injEq] at h
            subst h
            exact ⟨hinv.2.1, hinv.2.2⟩
        | otherExn =>
          dsimp only at h
          simp only [Option.some.injEq] at h
          subst h
          exact ⟨hinv.2.1, hinv.2.2⟩

/-- Witness for C4: the lock is present at the first check and absent at the
second, where the kill raises; SIGTERM is never sent while the lock exists. -/
theorem stop_defers_sigterm_while_locked_witness :
    sigOnlyAfterUnlockedCheck
      [Ev.sleep, Ev.checkLock true, Ev.sleep, Ev.checkLock false] = true ∧
    checkOnlyAfterSleep
      [Ev.sleep, Ev.checkLock true, Ev.sleep, Ev.checkLock false] = true :=
  stop_defers_sigterm_while_locked dLocked "/run/infoset.lock" (fsPid "5")
    (fun i => decide (i = 0)) (fun _ => KillRes.otherExn) 2
    ⟨fsPid "5", [],
      [Ev.sleep, Ev.checkLock true, Ev.sleep, Ev.checkLock false],
      Outcome.die 1066
        ("Unknown daemon \"stop\" error for PID file: " ++ dLocked.pidfile)⟩
    rfl rfl

/-! ## C9: the signalling loop of stop() has no timeout -/

theorem stopLoop_runs_forever (d : Daemon) (pid : Int) (lockAt : Nat → Bool)
    (killAt : Nat → KillRes)
    (hkill : ∀ i, killAt i = KillRes.delivered)
    (hlock : ∀ l, d.lockfile = some l → ∀ i, lockAt i = true) :
    ∀ fuel i, stopLoop d pid lockAt killAt i fuel = none := by
  intro fuel
  induction fuel with
  | zero => intro i; rfl
  | succ f ih =>
    intro i
    cases hlk : d.lockfile with
    | none => rw [stopLoop, hlk, hkill i, ih (i + 1)]
    | some l => rw [stopLoop, hlk, if_pos (hlock l hlk i), ih (i + 1)]

theorem stopLoop_exit_is_exception (d : Daemon) (pid : Int) (lockAt : Nat → Bool)
    (killAt : Nat → KillRes) :
    ∀ fuel i evs r, stopLoop d pid lockAt killAt i fuel = some (evs, r) →
      r ≠ KillRes.delivered := by
  intro fuel
  induction fuel with
  | zero => intro i evs r h; simp [stopLoop] at h
  | succ f ih =>
    intro i evs r h
    cases hlk : d.lockfile with
    | none =>
      rw [stopLoop, hlk] at h
      cases hk : killAt i with
      | delivered =>
        rw [hk] at h
        cases hrec : stopLoop d pid lockAt killAt (i + 1) f with
        | none => rw [hrec] at h; simp at h
        | some pr =>
          obtain ⟨evs2, r2⟩ := pr
          rw [hrec] at h
          simp only [Option.some.injEq, Prod.mk.injEq] at h
          rw [← h.2]
          exact ih (i + 1) evs2 r2 hrec
      | osError a =>
        rw [hk] at h
        simp only [Option.some.injEq, Prod.mk.injEq] at h
        rw [← h.2]
        simp
      | otherExn =>
        rw [hk] at h
        simp only [Option.some.injEq, Prod.mk.injEq] at h
        rw [← h.2]
        simp
    | some l =>
      rw [stopLoop, hlk] at h
      by_cases hli : lockAt i
      · rw [if_pos hli] at h
        cases hrec : stopLoop d pid lockAt killAt (i + 1) f with
        | none => rw [hrec] at h; simp at h
        | some pr =>
          obtain ⟨evs2, r2⟩ := pr
          rw [hrec] at h
          simp only [Option.some.injEq, Prod.mk.injEq] at h
          rw [← h.2]
          exact ih (i + 1) evs2 r2 hrec
      · rw [if_neg hli] at h
        cases hk : killAt i with
        | delivered =>
          rw [hk] at h
          cases hrec : stopLoop d pid lockAt killAt (i + 1) f with
          | none => rw [hrec] at h; simp at h
          | some pr =>
            obtain ⟨evs2, r2⟩ := pr
            rw [hrec] at h
            simp only [Option.some.injEq, Prod.mk.injEq] at h
            rw [← h.2]
            exact ih (i + 1) evs2 r2 hrec
        | osError a =>
          rw [hk] at h
          simp only [Option.some.injEq, Prod.mk.injEq] at h
          rw [← h.2]
          simp
        | otherExn =>
          rw [hk] at h
          simp only [Option.some.injEq, Prod.mk.injEq] at h
          rw [← h.2]
          simp

/-- C9: once `stop()` has found a nonzero PID, its signalling loop has no
timeout.  It exits only when a kill attempt raises (never while every
delivery succeeds), so if the target process never ceases to exist — and,
when a lock file is configured, the lock file never clears — `stop()` does
not terminate: it returns no result for any number of iterations. -/
theorem stop_loop_no_timeout (d : Daemon) (fs : FS) (lockAt : Nat → Bool)
    (killAt : Nat → KillRes) (c : String) (n : Int)
    (hc : fs d.pidfile = some c) (hn : pyInt c = some n) (hn0 : n ≠ 0) :
    ((∀ i, killAt i = KillRes.delivered) →
      (∀ l, d.lockfile = some l → ∀ i, lockAt i = true) →
      ∀ fuel, stop d fs lockAt killAt fuel = none) ∧
    (∀ fuel evs r, stopLoop d n lockAt killAt 0 fuel = some (evs, r) →
      r ≠ KillRes.delivered) := by
  constructor
  · intro hkill hlock fuel
    simp [stop, readPidfile, hc, hn, hn0,
      stopLoop_runs_forever d n lockAt killAt hkill hlock fuel 0]
  · intro fuel evs r h
    exact stopLoop_exit_is_exception d n lockAt killAt fuel 0 evs r h

/-- Witness for C9: a lock-free daemon whose process accepts every SIGTERM;
`stop()` is still running after 25 iterations. -/
theorem stop_loop_no_timeout_witness :
    stop dPlain (fsPid "5") (fun _ => true) (fun _ => KillRes.delivered) 25 = none :=
  (stop_loop_no_timeout dPlain (fsPid "5") (fun _ => true)
      (fun _ => KillRes.delivered) "5" 5 rfl rfl (by decide)).1
    (fun _ => rfl) (fun l hl => absurd hl (by simp [dPlain])) 25
